import Mathlib

/-!
Verification of `s3_lifecycle_rule_configurator.py`.

The script enumerates S3 buckets grouped by region, classifies regions as
opt-in or not, reads each bucket's current lifecycle rule set, and
idempotently ensures a rule aborting incomplete multipart uploads is
present.  We embed the pure decision logic of each function and prove the
spec's testable properties about it.
-/

namespace S3Lifecycle

/-- A lifecycle rule, as the Python dict-shaped record: an `ID`, a `Status`,
a `Filter` (here just its `Prefix` value), and optional action blocks.
`AbortIncompleteMultipartUpload` carries `DaysAfterInitiation` when the key
is present; `Expiration` carries `Days` when present. -/
structure LifecycleRule where
  ID : String
  Status : String
  Filter : String
  AbortIncompleteMultipartUpload : Option Nat
  Expiration : Option Nat
deriving DecidableEq, Repr

/-- The desired rule literal from `main` (source lines 102-107). -/
def new_lifecycle_rule : LifecycleRule :=
  { ID := "delete-incomplete-mpu-7days"
    Status := "Enabled"
    Filter := ""
    AbortIncompleteMultipartUpload := some 7
    Expiration := none }

/-- Outcome reported by the merge logic for one bucket. -/
inductive MergeOutcome where
  | alreadyCovered
  | alreadyPresentById
  | appended
deriving DecidableEq, Repr

/-- Result of the merge logic on one bucket: the reported outcome, the
resulting in-memory rule list, and the list of replace-writes issued
(each carrying the full rule set submitted). -/
structure MergeResult where
  outcome : MergeOutcome
  rules : List LifecycleRule
  writes : List (List LifecycleRule)
deriving DecidableEq, Repr

/-- `check_and_append_lifecycle_rule` (source lines 70-93): if some current
rule has the same `ID` as the new rule, report and do nothing; otherwise
append the new rule and issue one `put_bucket_lifecycle_configuration`
replace-write carrying the full resulting list. -/
def check_and_append_lifecycle_rule (current_rules : List LifecycleRule)
    (new_rule : LifecycleRule) : MergeResult :=
  if current_rules.any (fun rule => new_rule.ID == rule.ID) then
    { outcome := .alreadyPresentById, rules := current_rules, writes := [] }
  else
    let appended := current_rules ++ [new_rule]
    { outcome := .appended, rules := appended, writes := [appended] }

/-- The per-bucket body of `main` (source lines 118-125): if any current
rule contains the `AbortIncompleteMultipartUpload` key, report covered and
do nothing; otherwise defer to `check_and_append_lifecycle_rule`. -/
def main_bucket_step (current_rules : List LifecycleRule)
    (new_rule : LifecycleRule) : MergeResult :=
  if current_rules.any (fun rule => rule.AbortIncompleteMultipartUpload.isSome) then
    { outcome := .alreadyCovered, rules := current_rules, writes := [] }
  else
    check_and_append_lifecycle_rule current_rules new_rule

/-- An S3 `ClientError`, identified by its error code string. -/
structure ClientError where
  code : String
deriving DecidableEq, Repr

/-- Response of `get_bucket_lifecycle_configuration`: a dict that may or
may not contain the `Rules` key. -/
structure GetLifecycleResponse where
  Rules : Option (List LifecycleRule)
deriving DecidableEq, Repr

/-- `get_current_lifecycle` (source lines 50-67), as a function of the
underlying call's outcome: on success return the response's `Rules` list
(defaulting to the empty list when the key is absent); on a `ClientError`
with code `NoSuchLifecycleConfiguration` return the empty list; re-raise
any other error. -/
def get_current_lifecycle (response : Except ClientError GetLifecycleResponse) :
    Except ClientError (List LifecycleRule) :=
  match response with
  | .ok resp => .ok (resp.Rules.getD [])
  | .error e =>
    if e.code == "NoSuchLifecycleConfiguration" then .ok []
    else .error e

/-- Python truthiness-based normalization on source line 25:
`location or us-east-1` maps the null marker (and the falsy empty
string) to the default region code. -/
def normalizeLocation (loc : Option String) : String :=
  match loc with
  | none => "us-east-1"
  | some s => if s == "" then "us-east-1" else s

/-- `list_buckets` (source lines 14-32), as a function of the listed bucket
names and the per-bucket `get_bucket_location` lookup.  Each bucket's region
is its normalized location; the result maps each region occurring among the
buckets to the listed names located in it, in listing order. -/
def list_buckets (names : List String) (lookup : String → Option String) :
    List (String × List String) :=
  let regions := names.map (fun b => normalizeLocation (lookup b))
  regions.dedup.map
    (fun region => (region, names.filter (fun b => normalizeLocation (lookup b) == region)))

/-- `is_region_opt_in` (source lines 35-47), as a function of the
`RegionOptStatus` field of the account client's response (absent when the
response lacks the key, defaulted to `ENABLED`). -/
def is_region_opt_in (statusField : Option String) : Bool :=
  statusField.getD "ENABLED" != "ENABLED_BY_DEFAULT"

/-- The S3 client selected for a region in `main` (source lines 113-115):
the global client, unless the region is opt-in, in which case a client
bound to that region. -/
inductive S3Endpoint where
  | globalClient
  | regionalClient (region : String)
deriving DecidableEq, Repr

/-- Endpoint selection of `main` lines 113-115, as a function of the
region code and the account's `RegionOptStatus` lookup. -/
def select_client (statusOf : String → Option String) (region : String) : S3Endpoint :=
  if is_region_opt_in (statusOf region) then .regionalClient region
  else .globalClient

/-!  Theorems for the claims.  -/

/-- C1: whenever some existing rule contains an
`AbortIncompleteMultipartUpload` action block, the merge reports
already-covered, issues no replace-write and leaves the rule set unchanged,
for every desired rule (in particular regardless of IDs, so the capability
check takes precedence over the ID check). -/
theorem main_bucket_step_covered_no_write (current_rules : List LifecycleRule)
    (new_rule : LifecycleRule)
    (h : ∃ r ∈ current_rules, r.AbortIncompleteMultipartUpload.isSome) :
    (main_bucket_step current_rules new_rule).outcome = .alreadyCovered ∧
    (main_bucket_step current_rules new_rule).writes = [] ∧
    (main_bucket_step current_rules new_rule).rules = current_rules := by
  have hany : current_rules.any
      (fun rule => rule.AbortIncompleteMultipartUpload.isSome) = true :=
    List.any_eq_true.mpr h
  simp [main_bucket_step, hany]

/-- C1 witness: a rule set whose only rule carries the capability and even
shares the desired rule's ID still yields already-covered with no write. -/
theorem main_bucket_step_covered_no_write_witness :
    (main_bucket_step
      [{ ID := "delete-incomplete-mpu-7days", Status := "Enabled", Filter := "",
         AbortIncompleteMultipartUpload := some 3, Expiration := none }]
      new_lifecycle_rule).outcome = .alreadyCovered ∧
    (main_bucket_step
      [{ ID := "delete-incomplete-mpu-7days", Status := "Enabled", Filter := "",
         AbortIncompleteMultipartUpload := some 3, Expiration := none }]
      new_lifecycle_rule).writes = [] ∧
    (main_bucket_step
      [{ ID := "delete-incomplete-mpu-7days", Status := "Enabled", Filter := "",
         AbortIncompleteMultipartUpload := some 3, Expiration := none }]
      new_lifecycle_rule).rules =
      [{ ID := "delete-incomplete-mpu-7days", Status := "Enabled", Filter := "",
         AbortIncompleteMultipartUpload := some 3, Expiration := none }] :=
  main_bucket_step_covered_no_write _ _ (by decide)

/-- C2: when no existing rule has the capability and none shares the desired
rule's ID, the merge produces the original sequence with the desired rule
appended at the end and issues exactly one replace-write carrying that full
sequence. -/
theorem main_bucket_step_appends (current_rules : List LifecycleRule)
    (hcap : ∀ r ∈ current_rules, r.AbortIncompleteMultipartUpload = none)
    (hid : ∀ r ∈ current_rules, r.ID ≠ new_lifecycle_rule.ID) :
    (main_bucket_step current_rules new_lifecycle_rule).rules
      = current_rules ++ [new_lifecycle_rule] ∧
    (main_bucket_step current_rules new_lifecycle_rule).writes
      = [current_rules ++ [new_lifecycle_rule]] ∧
    (main_bucket_step current_rules new_lifecycle_rule).outcome = .appended := by
  have hany : current_rules.any
      (fun rule => rule.AbortIncompleteMultipartUpload.isSome) = false := by
    simp only [List.any_eq_false]
    intro r hr
    simp [hcap r hr]
  have hany2 : current_rules.any
      (fun rule => new_lifecycle_rule.ID == rule.ID) = false := by
    simp only [List.any_eq_false]
    intro r hr
    exact fun hb => hid r hr (eq_of_beq hb).symm
  simp [main_bucket_step, check_and_append_lifecycle_rule, hany, hany2]

/-- C2 witness: a pre-existing unrelated expiration rule is preserved in
order and the desired rule is appended, with one write of both rules. -/
theorem main_bucket_step_appends_witness :
    (main_bucket_step
      [{ ID := "expire-logs", Status := "Enabled", Filter := "logs/",
         AbortIncompleteMultipartUpload := none, Expiration := some 30 }]
      new_lifecycle_rule).rules =
      [{ ID := "expire-logs", Status := "Enabled", Filter := "logs/",
         AbortIncompleteMultipartUpload := none, Expiration := some 30 }]
        ++ [new_lifecycle_rule] ∧
    (main_bucket_step
      [{ ID := "expire-logs", Status := "Enabled", Filter := "logs/",
         AbortIncompleteMultipartUpload := none, Expiration := some 30 }]
      new_lifecycle_rule).writes =
      [[{ ID := "expire-logs", Status := "Enabled", Filter := "logs/",
          AbortIncompleteMultipartUpload := none, Expiration := some 30 }]
        ++ [new_lifecycle_rule]] ∧
    (main_bucket_step
      [{ ID := "expire-logs", Status := "Enabled", Filter := "logs/",
         AbortIncompleteMultipartUpload := none, Expiration := some 30 }]
      new_lifecycle_rule).outcome = .appended :=
  main_bucket_step_appends _ (by decide) (by decide)

/-- C3: when no existing rule has the capability but some rule already has
the desired rule's ID, the merge reports already-present-by-ID, issues no
replace-write and leaves the rule set unchanged. -/
theorem main_bucket_step_present_by_id (current_rules : List LifecycleRule)
    (hcap : ∀ r ∈ current_rules, r.AbortIncompleteMultipartUpload = none)
    (hid : ∃ r ∈ current_rules, r.ID = new_lifecycle_rule.ID) :
    (main_bucket_step current_rules new_lifecycle_rule).outcome
      = .alreadyPresentById ∧
    (main_bucket_step current_rules new_lifecycle_rule).writes = [] ∧
    (main_bucket_step current_rules new_lifecycle_rule).rules = current_rules := by
  have hany : current_rules.any
      (fun rule => rule.AbortIncompleteMultipartUpload.isSome) = false := by
    simp only [List.any_eq_false]
    intro r hr
    simp [hcap r hr]
  have hany2 : current_rules.any
      (fun rule => new_lifecycle_rule.ID == rule.ID) = true := by
    rcases hid with ⟨r, hr, hre⟩
    exact List.any_eq_true.mpr ⟨r, hr, by simp [hre]⟩
  simp [main_bucket_step, check_and_append_lifecycle_rule, hany, hany2]

/-- C3 witness: a rule with the desired ID but no capability blocks the
write and leaves the set unchanged. -/
theorem main_bucket_step_present_by_id_witness :
    (main_bucket_step
      [{ ID := "delete-incomplete-mpu-7days", Status := "Disabled", Filter := "",
         AbortIncompleteMultipartUpload := none, Expiration := some 5 }]
      new_lifecycle_rule).outcome = .alreadyPresentById ∧
    (main_bucket_step
      [{ ID := "delete-incomplete-mpu-7days", Status := "Disabled", Filter := "",
         AbortIncompleteMultipartUpload := none, Expiration := some 5 }]
      new_lifecycle_rule).writes = [] ∧
    (main_bucket_step
      [{ ID := "delete-incomplete-mpu-7days", Status := "Disabled", Filter := "",
         AbortIncompleteMultipartUpload := none, Expiration := some 5 }]
      new_lifecycle_rule).rules =
      [{ ID := "delete-incomplete-mpu-7days", Status := "Disabled", Filter := "",
         AbortIncompleteMultipartUpload := none, Expiration := some 5 }] :=
  main_bucket_step_present_by_id _ (by decide) (by decide)

/-- C4: idempotence of the merge.  If the merge on a starting rule set
performs a write, running the merge again on the resulting rule set
performs no write. -/
theorem main_bucket_step_idempotent (current_rules : List LifecycleRule)
    (h : (main_bucket_step current_rules new_lifecycle_rule).writes ≠ []) :
    (main_bucket_step (main_bucket_step current_rules new_lifecycle_rule).rules
      new_lifecycle_rule).writes = [] := by
  by_cases h1 : current_rules.any
      (fun rule => rule.AbortIncompleteMultipartUpload.isSome) = true
  · exact absurd (by simp [main_bucket_step, h1]) h
  · by_cases h2 : current_rules.any
        (fun rule => new_lifecycle_rule.ID == rule.ID) = true
    · exact absurd
        (by simp [main_bucket_step, check_and_append_lifecycle_rule, h1, h2]) h
    · have hrules : (main_bucket_step current_rules new_lifecycle_rule).rules
          = current_rules ++ [new_lifecycle_rule] := by
        simp [main_bucket_step, check_and_append_lifecycle_rule, h1, h2]
      rw [hrules]
      have hany : (current_rules ++ [new_lifecycle_rule]).any
          (fun rule => rule.AbortIncompleteMultipartUpload.isSome) = true := by
        simp [new_lifecycle_rule]
      simp [main_bucket_step, hany]

/-- C4 witness: starting from the empty rule set, the first merge writes
and the second merge on its result does not. -/
theorem main_bucket_step_idempotent_witness :
    (main_bucket_step [] new_lifecycle_rule).writes ≠ [] ∧
    (main_bucket_step (main_bucket_step [] new_lifecycle_rule).rules
      new_lifecycle_rule).writes = [] :=
  ⟨by decide, main_bucket_step_idempotent [] (by decide)⟩

/-- C5: the merge preserves uniqueness of rule IDs.  If the starting rule
set has pairwise-distinct IDs, so does the rule set carried by any
replace-write the merge issues. -/
theorem main_bucket_step_preserves_unique_ids (current_rules : List LifecycleRule)
    (hnodup : (current_rules.map LifecycleRule.ID).Nodup) :
    ∀ w ∈ (main_bucket_step current_rules new_lifecycle_rule).writes,
      (w.map LifecycleRule.ID).Nodup := by
  intro w hw
  by_cases h1 : current_rules.any
      (fun rule => rule.AbortIncompleteMultipartUpload.isSome) = true
  · simp [main_bucket_step, h1] at hw
  · by_cases h2 : current_rules.any
        (fun rule => new_lifecycle_rule.ID == rule.ID) = true
    · simp [main_bucket_step, check_and_append_lifecycle_rule, h1, h2] at hw
    · have hw' : w = current_rules ++ [new_lifecycle_rule] := by
        simpa [main_bucket_step, check_and_append_lifecycle_rule, h1, h2] using hw
      subst hw'
      have hnotin : new_lifecycle_rule.ID ∉ current_rules.map LifecycleRule.ID := by
        intro hmem
        rcases List.mem_map.mp hmem with ⟨r, hr, hre⟩
        exact h2 (List.any_eq_true.mpr ⟨r, hr, by simp [hre]⟩)
      rw [List.map_append, List.map_singleton]
      exact List.Nodup.append hnodup (List.nodup_singleton _)
        (List.disjoint_singleton.mpr hnotin)

/-- C5 witness: from a set with one distinct ID, the single write issued
carries pairwise-distinct IDs. -/
theorem main_bucket_step_preserves_unique_ids_witness :
    (([({ ID := "expire-logs", Status := "Enabled", Filter := "logs/",
          AbortIncompleteMultipartUpload := none, Expiration := some 30 } : LifecycleRule)]
      ++ [new_lifecycle_rule]).map LifecycleRule.ID).Nodup :=
  main_bucket_step_preserves_unique_ids
    [({ ID := "expire-logs", Status := "Enabled", Filter := "logs/",
        AbortIncompleteMultipartUpload := none, Expiration := some 30 } : LifecycleRule)]
    (by decide) _ (by decide)

/-- C9: the capability check looks only at the presence of the
`AbortIncompleteMultipartUpload` key.  Any rule set containing a rule with
that key blocks the write, whatever that rule's `Status`, `Filter` or
`DaysAfterInitiation` value. -/
theorem capability_check_is_key_presence_only (current_rules : List LifecycleRule)
    (r : LifecycleRule) (hr : r ∈ current_rules)
    (hcap : r.AbortIncompleteMultipartUpload.isSome) :
    (main_bucket_step current_rules new_lifecycle_rule).writes = [] ∧
    (main_bucket_step current_rules new_lifecycle_rule).outcome
      = .alreadyCovered := by
  have hany : current_rules.any
      (fun rule => rule.AbortIncompleteMultipartUpload.isSome) = true :=
    List.any_eq_true.mpr ⟨r, hr, hcap⟩
  simp [main_bucket_step, hany]

/-- C9 witness: a disabled rule scoped to a prefix with a 3-day threshold
still counts as covered and blocks the write. -/
theorem capability_check_is_key_presence_only_witness :
    (main_bucket_step
      [{ ID := "custom-mpu-cleanup", Status := "Disabled", Filter := "logs/",
         AbortIncompleteMultipartUpload := some 3, Expiration := none }]
      new_lifecycle_rule).writes = [] ∧
    (main_bucket_step
      [{ ID := "custom-mpu-cleanup", Status := "Disabled", Filter := "logs/",
         AbortIncompleteMultipartUpload := some 3, Expiration := none }]
      new_lifecycle_rule).outcome = .alreadyCovered :=
  capability_check_is_key_presence_only _
    ({ ID := "custom-mpu-cleanup", Status := "Disabled", Filter := "logs/",
       AbortIncompleteMultipartUpload := some 3, Expiration := none } : LifecycleRule)
    (by decide) (by decide)

/-- C6 counterexample: the claim that the reader returns an empty sequence
exactly when the underlying call fails with `NoSuchLifecycleConfiguration`
is false: a successful response without a `Rules` key also yields the empty
sequence. -/
theorem get_current_lifecycle_empty_iff_error_cex :
    ¬ (∀ response : Except ClientError GetLifecycleResponse,
        get_current_lifecycle response = Except.ok [] ↔
          response = Except.error { code := "NoSuchLifecycleConfiguration" }) := by
  intro hclaim
  have h := (hclaim (Except.ok { Rules := none })).mp rfl
  exact Except.noConfusion h

/-- C6 (amended): the reader returns the empty sequence exactly when the
underlying call fails with `NoSuchLifecycleConfiguration` or succeeds with
an absent or empty `Rules` list; every error with any other code propagates
unchanged. -/
theorem get_current_lifecycle_spec :
    (∀ response : Except ClientError GetLifecycleResponse,
      get_current_lifecycle response = Except.ok [] ↔
        (response = Except.error { code := "NoSuchLifecycleConfiguration" } ∨
         response = Except.ok { Rules := none } ∨
         response = Except.ok { Rules := some [] })) ∧
    (∀ e : ClientError, e.code ≠ "NoSuchLifecycleConfiguration" →
      get_current_lifecycle (Except.error e) = Except.error e) := by
  constructor
  · intro response
    match response with
    | .ok ⟨none⟩ => simp [get_current_lifecycle]
    | .ok ⟨some []⟩ => simp [get_current_lifecycle]
    | .ok ⟨some (r :: rs)⟩ => simp [get_current_lifecycle]
    | .error e =>
      rcases e with ⟨c⟩
      by_cases hc : c = "NoSuchLifecycleConfiguration"
      · subst hc
        simp [get_current_lifecycle]
      · simp [get_current_lifecycle, hc]
  · intro e he
    rcases e with ⟨c⟩
    simp only [ClientError.code] at he
    simp [get_current_lifecycle, he]

/-- C6 witness: an access-denied error propagates unchanged rather than
being masked as an empty rule set. -/
theorem get_current_lifecycle_spec_witness :
    get_current_lifecycle (Except.error { code := "AccessDenied" })
      = Except.error { code := "AccessDenied" } :=
  get_current_lifecycle_spec.2 { code := "AccessDenied" } (by decide)

/-- C7: the null location marker is normalized to the default region code,
so any two location lookups that agree after normalization (in particular
one reporting the null marker where the other reports an explicit
us-east-1) produce identical bucket groupings, and the selected endpoint
for the two locations is identical. -/
theorem region_normalization :
    normalizeLocation none = normalizeLocation (some "us-east-1") ∧
    (∀ (names : List String) (lookup lookup2 : String → Option String),
      (∀ b, normalizeLocation (lookup b) = normalizeLocation (lookup2 b)) →
      list_buckets names lookup = list_buckets names lookup2) ∧
    (∀ statusOf : String → Option String,
      select_client statusOf (normalizeLocation none)
        = select_client statusOf (normalizeLocation (some "us-east-1"))) := by
  refine ⟨by decide, ?_, ?_⟩
  · intro names lookup lookup2 h
    simp only [list_buckets, h]
  · intro statusOf
    exact congrArg (select_client statusOf) (by decide)

/-- C7 witness: a bucket with the null location marker is grouped exactly
as one whose location is explicitly us-east-1. -/
theorem region_normalization_witness :
    list_buckets ["bucket-a"] (fun _ => none)
      = list_buckets ["bucket-a"] (fun _ => some "us-east-1") :=
  region_normalization.2.1 ["bucket-a"] (fun _ => none)
    (fun _ => some "us-east-1") (fun _ => by simp [normalizeLocation])

/-- C8: the enumerator's mapping partitions the listing: its region keys
are pairwise distinct, a name belongs to a region's group exactly when it
was listed and that region is its normalized location, and every listed
name's normalized region does key a group containing exactly the names it
should. -/
theorem list_buckets_partitions (names : List String)
    (lookup : String → Option String) :
    ((list_buckets names lookup).map Prod.fst).Nodup ∧
    (∀ region group, (region, group) ∈ list_buckets names lookup →
      ∀ b, b ∈ group ↔ b ∈ names ∧ normalizeLocation (lookup b) = region) ∧
    (∀ b ∈ names,
      (normalizeLocation (lookup b),
        names.filter
          (fun x => normalizeLocation (lookup x) == normalizeLocation (lookup b)))
        ∈ list_buckets names lookup) := by
  refine ⟨?_, ?_, ?_⟩
  · have hkeys : (list_buckets names lookup).map Prod.fst
        = (names.map (fun b => normalizeLocation (lookup b))).dedup := by
      simp [list_buckets, List.map_map, Function.comp_def]
    rw [hkeys]
    exact List.nodup_dedup _
  · intro region group hmem b
    rcases List.mem_map.mp hmem with ⟨r, hr, hfr⟩
    cases hfr
    simp [List.mem_filter]
  · intro b hb
    refine List.mem_map.mpr ⟨normalizeLocation (lookup b), ?_, rfl⟩
    exact List.mem_dedup.mpr (List.mem_map.mpr ⟨b, hb, rfl⟩)

/-- C8 witness: with two buckets both located at the null marker, a name
belongs to the us-east-1 group exactly as the characterization states. -/
theorem list_buckets_partitions_witness :
    "a" ∈ ["a", "b"] ↔
      "a" ∈ ["a", "b"] ∧ normalizeLocation (none : Option String) = "us-east-1" :=
  (list_buckets_partitions ["a", "b"] (fun _ => none)).2.1
    "us-east-1" ["a", "b"] (by decide) "a"

/-- C10: the opt-in classifier returns false exactly when the reported
status (defaulted to ENABLED when the field is absent) equals
ENABLED_BY_DEFAULT; an absent field and a DISABLED status are both
classified opt-in. -/
theorem is_region_opt_in_spec :
    (∀ statusField : Option String,
      is_region_opt_in statusField = false ↔
        statusField.getD "ENABLED" = "ENABLED_BY_DEFAULT") ∧
    is_region_opt_in none = true ∧
    is_region_opt_in (some "DISABLED") = true := by
  refine ⟨?_, by decide, by decide⟩
  intro s
  simp [is_region_opt_in]

end S3Lifecycle
